import Mathlib

/-!
Verification of the kingdom_sim procedural world-generation core.

Shallow embedding conventions
- `f64`/`f32` arithmetic is embedded as exact rational arithmetic (`ℚ`);
  decimal literals of the source are written as the corresponding rationals.
- The transcendental standard-library functions (`cos`, `sin`, `exp`,
  `powf`) and the external `noise` crate's `OpenSimplex` evaluators are not
  repository code: they enter the embedding as explicit function parameters
  (`FloatOps`, and a seed-indexed noise family `osim`).  A separate
  real-valued layer (suffix `R`) uses `Real.cos`/`Real.sin` where a claim's
  truth depends on genuine trigonometric identities.
- The `f64` constant `std::f64::consts::PI` is the exact dyadic rational
  `pi64` below.
- Vectors (`Vec<Square>`) are embedded as `List Square`; in-place index
  assignment becomes `List.set`.
-/

/-! ### Data model (src/components/world.rs, src/components/world_gen.rs) -/

/-- The biome tags of `src/components/world.rs` (all twenty constructors,
including the legacy elevation-only tags). -/
inductive Biome where
  | Ocean
  | Coast
  | Grassland
  | Forest
  | Desert
  | Hill
  | Mountain
  | Ice
  | Alpine
  | Snow
  | Tundra
  | BorealForest
  | Taiga
  | ColdDesert
  | TemperateForest
  | TemperateRainforest
  | HotDesert
  | Savanna
  | SubtropicalForest
  | TropicalRainforest
deriving DecidableEq, Repr

/-- `Square` of `src/components/world.rs`. -/
structure Square where
  biome : Biome
  elevation : ℚ
  temperature : ℚ
  moisture : ℚ
deriving DecidableEq, Repr

/-- `WorldData` of `src/components/world_gen.rs` (the generation config). -/
structure WorldData where
  seed : ℕ
  terrain_scale : ℚ
  continental_scale : ℚ
  num_of_octaves : ℕ
  sea_threshold : ℚ
  temperature_scale : ℚ
  moisture_scale : ℚ
  scaling_factor : ℚ

/-- The float standard-library operations used by the generator, abstracted:
`fcos`/`fsin`/`fexp` for `f64::cos/sin/exp`, `fpow` for `f64::powf`. -/
structure FloatOps where
  fcos : ℚ → ℚ
  fsin : ℚ → ℚ
  fexp : ℚ → ℚ
  fpow : ℚ → ℚ → ℚ

/-- A seed-indexed family of 4-D noise evaluators, abstracting
`OpenSimplex::new(seed)` of the external `noise` crate. -/
def NoiseFamily : Type := ℕ → ℚ → ℚ → ℚ → ℚ → ℚ

/-- The exact rational value of `std::f64::consts::PI`. -/
def pi64 : ℚ := 884279719003555 / 281474976710656

/-- `SEA_LEVEL` (src/main.rs line 71, src/systems/world_gen.rs line 12). -/
def SEA_LEVEL : ℚ := 48 / 100

/-- `WORLD_SIZE` of src/main.rs (line 68). -/
def WORLD_SIZE : ℕ := 4096

/-- `CHUNK_SIZE` (src/main.rs line 69). -/
def CHUNK_SIZE : ℕ := 256

/-- `f64::clamp(0.0, 1.0)` on a non-NaN value. -/
def clamp01 (x : ℚ) : ℚ := if x < 0 then 0 else if x > 1 then 1 else x

/-- `get_land_strength` (src/main.rs lines 459-468): a Rust `match` on `f64`
with inclusive range patterns, first match wins. -/
def get_land_strength (elevation : ℚ) : ℚ :=
  if elevation = -1 then 0
  else if -1 ≤ elevation ∧ elevation ≤ -(1/2) then 1/10
  else if -(1/2) ≤ elevation ∧ elevation ≤ 0 then 1/2
  else if 0 ≤ elevation ∧ elevation ≤ 1/2 then 4/5
  else if 1/2 ≤ elevation ∧ elevation ≤ 1 then 1
  else 0

/-- `biome_from_climate` (src/main.rs lines 389-457; identical copy in
src/systems/world_gen.rs lines 368-436). -/
def biome_from_climate (temp_c moisture elevation max_elevation : ℚ) : Biome :=
  let sea_level_elevation := max_elevation * SEA_LEVEL
  if elevation < sea_level_elevation then Biome.Ocean
  else if temp_c < -10 then Biome.Ice
  else if elevation > 3/4 * max_elevation ∧ temp_c ≤ 0 then Biome.Snow
  else if elevation > 3/5 * max_elevation ∧ temp_c ≤ 2 then Biome.Alpine
  else if temp_c < -5 then
    (if moisture < 2/5 then Biome.Tundra else Biome.BorealForest)
  else if temp_c < 5 then
    (if moisture < 3/10 then Biome.Tundra else Biome.Taiga)
  else if temp_c < 18 then
    (if moisture < 1/5 then Biome.ColdDesert
     else if moisture < 1/2 then Biome.Grassland
     else if moisture < 3/4 then Biome.TemperateForest
     else Biome.TemperateRainforest)
  else if temp_c < 25 then
    (if moisture < 1/5 then Biome.HotDesert
     else if moisture < 1/2 then Biome.Savanna
     else Biome.SubtropicalForest)
  else
    (if moisture < 1/5 then Biome.HotDesert
     else if moisture < 9/20 then Biome.Savanna
     else Biome.TropicalRainforest)

/-- The fifteen climate biomes of the combined-climate classifier. -/
def climateBiomes : List Biome :=
  [Biome.Ocean, Biome.Ice, Biome.Snow, Biome.Alpine, Biome.Tundra,
   Biome.BorealForest, Biome.Taiga, Biome.ColdDesert, Biome.Grassland,
   Biome.TemperateForest, Biome.TemperateRainforest, Biome.HotDesert,
   Biome.Savanna, Biome.SubtropicalForest, Biome.TropicalRainforest]

/-- The legacy elevation-only biome tags. -/
def legacyBiomes : List Biome :=
  [Biome.Coast, Biome.Forest, Biome.Desert, Biome.Hill, Biome.Mountain]

/-! ### Claims C4 and C9 -/

set_option maxHeartbeats 1600000 in
/-- Every classifier output is a climate biome and never a legacy tag. -/
lemma biome_from_climate_mem (t m e me : ℚ) :
    biome_from_climate t m e me ∈ climateBiomes ∧
    biome_from_climate t m e me ∉ legacyBiomes := by
  simp only [biome_from_climate]
  split_ifs <;> decide

/-- **C4**: `biome_from_climate` is a total function returning one of the
fifteen climate biomes (never a legacy tag), and every input with
`elevation < 0.48 * max_elevation` is mapped to `Ocean` regardless of
temperature and moisture. -/
theorem c4_classifier_total_fifteen_ocean (t m e me : ℚ) :
    biome_from_climate t m e me ∈ climateBiomes ∧
    biome_from_climate t m e me ∉ legacyBiomes ∧
    (e < 48/100 * me → biome_from_climate t m e me = Biome.Ocean) := by
  refine ⟨(biome_from_climate_mem t m e me).1, (biome_from_climate_mem t m e me).2, ?_⟩
  intro h
  have hsea : e < me * SEA_LEVEL := by
    unfold SEA_LEVEL; linarith
  simp only [biome_from_climate]
  rw [if_pos hsea]

/-- Witness for C4 at a concrete input below sea level. -/
theorem c4_classifier_total_fifteen_ocean_witness :
    (40 : ℚ) < 48/100 * 100 ∧ biome_from_climate 20 (1/2) 40 100 = Biome.Ocean :=
  ⟨by norm_num, (c4_classifier_total_fifteen_ocean 20 (1/2) 40 100).2.2 (by norm_num)⟩

/-- **C9**: the land-strength weighting returns 0 at `c = -1`, `1/10` on
`(-1, -1/2]`, `1/2` on `(-1/2, 0]`, `4/5` on `(0, 1/2]`, `1` on `(1/2, 1]`,
and 0 for every other input. -/
theorem c9_land_strength_piecewise (c : ℚ) :
    (c = -1 → get_land_strength c = 0) ∧
    (-1 < c → c ≤ -(1/2) → get_land_strength c = 1/10) ∧
    (-(1/2) < c → c ≤ 0 → get_land_strength c = 1/2) ∧
    (0 < c → c ≤ 1/2 → get_land_strength c = 4/5) ∧
    (1/2 < c → c ≤ 1 → get_land_strength c = 1) ∧
    (c < -1 → get_land_strength c = 0) ∧
    (1 < c → get_land_strength c = 0) := by
  refine ⟨?_, ?_, ?_, ?_, ?_, ?_, ?_⟩
  · intro h
    simp only [get_land_strength]
    rw [if_pos h]
  · intro h1 h2
    have hne : c ≠ -1 := by intro hc; rw [hc] at h1; linarith
    simp only [get_land_strength]
    rw [if_neg hne, if_pos ⟨le_of_lt h1, h2⟩]
  · intro h1 h2
    have hne : c ≠ -1 := by intro hc; rw [hc] at h1; linarith
    have hn2 : ¬(-1 ≤ c ∧ c ≤ -(1/2)) := by rintro ⟨_, hb⟩; linarith
    simp only [get_land_strength]
    rw [if_neg hne, if_neg hn2, if_pos ⟨le_of_lt h1, h2⟩]
  · intro h1 h2
    have hne : c ≠ -1 := by intro hc; rw [hc] at h1; linarith
    have hn2 : ¬(-1 ≤ c ∧ c ≤ -(1/2)) := by rintro ⟨_, hb⟩; linarith
    have hn3 : ¬(-(1/2) ≤ c ∧ c ≤ 0) := by rintro ⟨_, hb⟩; linarith
    simp only [get_land_strength]
    rw [if_neg hne, if_neg hn2, if_neg hn3, if_pos ⟨le_of_lt h1, h2⟩]
  · intro h1 h2
    have hne : c ≠ -1 := by intro hc; rw [hc] at h1; linarith
    have hn2 : ¬(-1 ≤ c ∧ c ≤ -(1/2)) := by rintro ⟨_, hb⟩; linarith
    have hn3 : ¬(-(1/2) ≤ c ∧ c ≤ 0) := by rintro ⟨_, hb⟩; linarith
    have hn4 : ¬(0 ≤ c ∧ c ≤ 1/2) := by rintro ⟨_, hb⟩; linarith
    simp only [get_land_strength]
    rw [if_neg hne, if_neg hn2, if_neg hn3, if_neg hn4, if_pos ⟨le_of_lt h1, h2⟩]
  · intro h1
    have hne : c ≠ -1 := by intro hc; rw [hc] at h1; linarith
    have hn2 : ¬(-1 ≤ c ∧ c ≤ -(1/2)) := by rintro ⟨ha, _⟩; linarith
    have hn3 : ¬(-(1/2) ≤ c ∧ c ≤ 0) := by rintro ⟨ha, _⟩; linarith
    have hn4 : ¬(0 ≤ c ∧ c ≤ 1/2) := by rintro ⟨ha, _⟩; linarith
    have hn5 : ¬(1/2 ≤ c ∧ c ≤ 1) := by rintro ⟨ha, _⟩; linarith
    simp only [get_land_strength]
    rw [if_neg hne, if_neg hn2, if_neg hn3, if_neg hn4, if_neg hn5]
  · intro h1
    have hne : c ≠ -1 := by intro hc; rw [hc] at h1; linarith
    have hn2 : ¬(-1 ≤ c ∧ c ≤ -(1/2)) := by rintro ⟨_, hb⟩; linarith
    have hn3 : ¬(-(1/2) ≤ c ∧ c ≤ 0) := by rintro ⟨_, hb⟩; linarith
    have hn4 : ¬(0 ≤ c ∧ c ≤ 1/2) := by rintro ⟨_, hb⟩; linarith
    have hn5 : ¬(1/2 ≤ c ∧ c ≤ 1) := by rintro ⟨_, hb⟩; linarith
    simp only [get_land_strength]
    rw [if_neg hne, if_neg hn2, if_neg hn3, if_neg hn4, if_neg hn5]

/-- Witness for C9 on each populated interval. -/
theorem c9_land_strength_piecewise_witness :
    ((-1 : ℚ) < -(3/4) ∧ (-(3/4) : ℚ) ≤ -(1/2) ∧ get_land_strength (-(3/4)) = 1/10) ∧
    ((0 : ℚ) < 1/4 ∧ (1/4 : ℚ) ≤ 1/2 ∧ get_land_strength (1/4) = 4/5) :=
  ⟨⟨by norm_num, by norm_num,
      (c9_land_strength_piecewise (-(3/4))).2.1 (by norm_num) (by norm_num)⟩,
   ⟨by norm_num, by norm_num,
      (c9_land_strength_piecewise (1/4)).2.2.2.1 (by norm_num) (by norm_num)⟩⟩

/-! ### Per-cell generation (src/main.rs lines 242-338) -/

/-- The fractal octave loop of src/main.rs lines 256-272 (and
src/systems/world_gen.rs lines 68-86): returns
`(elevation_terrain, max_possible_amplitude)` after `n` octaves starting
from the given `scale` and `amplitude`. -/
def octaveAux (noise : ℚ → ℚ → ℚ → ℚ → ℚ) (nx ny nz nw : ℚ) :
    ℕ → ℚ → ℚ → ℚ × ℚ
  | 0, _, _ => (0, 0)
  | n + 1, scale, amplitude =>
    let rest := octaveAux noise nx ny nz nw n (scale * 2) (amplitude / 2)
    (noise (nx * scale) (ny * scale) (nz * scale) (nw * scale) * amplitude + rest.1,
     amplitude + rest.2)

/-- The moisture latitude term of src/main.rs lines 321-326, as a function of
the value `y` the source uses there (which is the torus angle
`(i / WORLD_SIZE) / WORLD_SIZE * 2 * PI`, not the grid row). -/
def mainMoistureLatitude (ops : FloatOps) (W : ℕ) (y : ℚ) : ℚ :=
  let latitude := |y - (W : ℚ) / 2| / ((W : ℚ) / 2)
  let equator_wet := ops.fexp (-latitude * 3)
  let subtropical_dry := ops.fexp (-((latitude - 3/10) ^ 2) / (2/100))
  equator_wet - 2/5 * subtropical_dry

/-- The moisture latitude term as the specification describes it:
`lat ∈ [0,1]` is the normalized distance of the un-embedded grid row `yRow`
from the map's vertical center. -/
def specMoistureLatitude (ops : FloatOps) (W yRow : ℕ) : ℚ :=
  let latitude := |(yRow : ℚ) - (W : ℚ) / 2| / ((W : ℚ) / 2)
  ops.fexp (-latitude * 3) - 2/5 * ops.fexp (-((latitude - 3/10) ^ 2) / (2/100))

/-- The per-cell stage of `generate_logical_world` (src/main.rs lines
242-338): elevation, temperature and raw (pre-advection) moisture for flat
index `i` on a `W × W` grid; the biome is the `Ocean` placeholder. -/
def mainSquareAt (ops : FloatOps) (osim : NoiseFamily) (cfg : WorldData)
    (W i : ℕ) : Square :=
  let x : ℚ := ((i % W : ℕ) : ℚ) / (W : ℚ) * 2 * pi64
  let y : ℚ := ((i / W : ℕ) : ℚ) / (W : ℚ) * 2 * pi64
  let nx := ops.fcos x * cfg.scaling_factor
  let ny := ops.fsin x * cfg.scaling_factor
  let nz := ops.fcos y * cfg.scaling_factor
  let nw := ops.fsin y * cfg.scaling_factor
  let oct := octaveAux (osim cfg.seed) nx ny nz nw cfg.num_of_octaves cfg.terrain_scale 1
  let elevation_terrain := oct.1
  let max_possible_amplitude := oct.2
  let elevation_continental := osim (cfg.seed + 1)
    (nx * cfg.continental_scale) (ny * cfg.continental_scale)
    (nz * cfg.continental_scale) (nw * cfg.continental_scale)
  let sea_bias : ℚ := 75/1000
  let elevation_normalized := (elevation_continental - sea_bias)
    + ((elevation_terrain / max_possible_amplitude)
        * get_land_strength elevation_continental)
  let elevation_final := ((elevation_normalized + 1) / 2) * 100
  let y_lat : ℚ := ((i / W : ℕ) : ℚ)
  let latitude := |y_lat - (W : ℚ) / 2| / ((W : ℚ) / 2)
  let temperature_latitude := 30 - 40 * latitude
  let h := elevation_final / 100
  let temperature_elevation := -(ops.fpow h (3/2)) * 15
  let temperature_noise := osim (cfg.seed + 2)
    (nx * cfg.temperature_scale) (ny * cfg.temperature_scale)
    (nz * cfg.temperature_scale) (nw * cfg.temperature_scale) * 5
  let temperature_final := temperature_latitude + temperature_elevation + temperature_noise
  let moisture_noise := osim (cfg.seed + 3)
    (nx * cfg.moisture_scale) (ny * cfg.moisture_scale)
    (nz * cfg.moisture_scale) (nw * cfg.moisture_scale)
  let moisture_base := (moisture_noise + 1) / 2
  let moisture_latitude := mainMoistureLatitude ops W y
  let moisture_elevation := -(elevation_final / 100) * (1/4)
  let moisture_final := clamp01 (moisture_base + moisture_latitude + moisture_elevation)
  { biome := Biome.Ocean
    elevation := elevation_final
    temperature := temperature_final
    moisture := moisture_final }

/-- Identity float operations, used to instantiate the abstract
transcendental functions at concrete inputs. -/
def idOps : FloatOps := ⟨id, id, id, fun a _ => a⟩

/-- **C1**: the code's moisture latitude term is computed from the torus
angle `y ∈ [0, 2π)` instead of the grid row, so at the equator row
`yRow = WORLD_SIZE / 2` it disagrees with the specified
`exp(-3|lat|) - 0.4 exp(-((|lat|-0.3)^2)/0.02)` with `lat = 0`: the code's
latitude is `(2048 - π)/2048 ≈ 0.9985`, not `0`.  Stated with the
transcendental `exp` instantiated to the identity function. -/
theorem c1_moisture_latitude_uses_angle_not_grid_row :
    mainMoistureLatitude idOps WORLD_SIZE
        (((WORLD_SIZE / 2 : ℕ) : ℚ) / (WORLD_SIZE : ℚ) * 2 * pi64)
      ≠ specMoistureLatitude idOps WORLD_SIZE (WORLD_SIZE / 2) ∧
    |(((WORLD_SIZE / 2 : ℕ) : ℚ) / (WORLD_SIZE : ℚ) * 2 * pi64) - (WORLD_SIZE : ℚ) / 2|
        / ((WORLD_SIZE : ℚ) / 2) ≠ 0 := by
  have hy : (((WORLD_SIZE / 2 : ℕ) : ℚ) / (WORLD_SIZE : ℚ) * 2 * pi64) = pi64 := by
    norm_num [WORLD_SIZE]
  have habs : |pi64 - (WORLD_SIZE : ℚ) / 2| = (WORLD_SIZE : ℚ) / 2 - pi64 := by
    rw [abs_of_neg (show pi64 - (WORLD_SIZE : ℚ) / 2 < 0 by norm_num [pi64, WORLD_SIZE])]
    ring
  have habs0 : |((WORLD_SIZE / 2 : ℕ) : ℚ) - (WORLD_SIZE : ℚ) / 2| = 0 := by
    norm_num [WORLD_SIZE]
  constructor
  · simp only [mainMoistureLatitude, specMoistureLatitude, idOps, hy, habs, habs0, id_eq]
    norm_num [WORLD_SIZE, pi64]
  · rw [hy, habs]
    norm_num [WORLD_SIZE, pi64]

/-! ### The moisture advection / biome assignment pass
(src/main.rs lines 341-379) -/

/-- Stand-in for an arbitrary `Square` used as `List.getD` default; all pass
theorems access only in-range indices, where the default is irrelevant. -/
def dSq : Square := ⟨Biome.Ocean, 0, 0, 0⟩

/-- The upwind index of src/main.rs lines 343-347: `i + 1`, wrapping to `0`
only at the last index of the whole flat grid. -/
def upwindIdx (n i : ℕ) : ℕ := if i = n - 1 then 0 else i + 1

/-- The square written at index `i` by one iteration of the pass loop
(src/main.rs lines 349-370), reading the current state `sq`. -/
def advValue (n : ℕ) (sq : List Square) (i : ℕ) : Square :=
  let cur := sq.getD i dSq
  let up := sq.getD (upwindIdx n i) dSq
  let height_diff := (cur.elevation - up.elevation) / 100
  let m1 := if height_diff > 0 then up.moisture - height_diff * (2/5) else up.moisture
  let m := clamp01 m1
  { biome := biome_from_climate cur.temperature m cur.elevation 100
    elevation := cur.elevation
    temperature := cur.temperature
    moisture := m }

/-- One iteration of the pass loop: in-place update of index `i`. -/
def advStep (n : ℕ) (sq : List Square) (i : ℕ) : List Square :=
  sq.set i (advValue n sq i)

/-- The pass loop after its first `k` iterations (indices `0..k-1`). -/
def moisturePassAux (n : ℕ) : ℕ → List Square → List Square
  | 0, sq => sq
  | k + 1, sq => advStep n (moisturePassAux n k sq) k

/-- The complete sequential pass of src/main.rs lines 341-379. -/
def moisturePass (sq : List Square) : List Square :=
  moisturePassAux sq.length sq.length sq

lemma advStep_length (n : ℕ) (sq : List Square) (i : ℕ) :
    (advStep n sq i).length = sq.length := List.length_set sq i _

lemma moisturePassAux_length (n : ℕ) (sq : List Square) :
    ∀ k, (moisturePassAux n k sq).length = sq.length := by
  intro k
  induction k with
  | zero => rfl
  | succ k ih => rw [moisturePassAux, advStep_length, ih]

lemma moisturePass_length (sq : List Square) :
    (moisturePass sq).length = sq.length := moisturePassAux_length _ _ _

/-- Indices not yet processed still hold their original value. -/
lemma moisturePassAux_getElem?_ge (n : ℕ) (sq : List Square) :
    ∀ k j, k ≤ j → (moisturePassAux n k sq)[j]? = sq[j]? := by
  intro k
  induction k with
  | zero => intro j _; rfl
  | succ k ih =>
    intro j h
    rw [moisturePassAux, advStep, List.getElem?_set_ne (by omega), ih j (by omega)]

/-- A processed index is never touched again by later iterations. -/
lemma moisturePassAux_getElem?_stable (n : ℕ) (sq : List Square) :
    ∀ k j, j < k → (moisturePassAux n k sq)[j]? = (moisturePassAux n (j + 1) sq)[j]? := by
  intro k
  induction k with
  | zero => intro j h; omega
  | succ k ih =>
    intro j h
    by_cases hj : j = k
    · subst hj; rfl
    · rw [moisturePassAux, advStep, List.getElem?_set_ne (by omega), ih j (by omega)]

/-- The final value at an in-range index `i` is the update computed from the
state just before iteration `i`. -/
lemma moisturePass_getElem? (sq : List Square) (i : ℕ) (h : i < sq.length) :
    (moisturePass sq)[i]? =
      some (advValue sq.length (moisturePassAux sq.length i sq) i) := by
  unfold moisturePass
  rw [moisturePassAux_getElem?_stable sq.length sq sq.length i h, moisturePassAux, advStep]
  exact List.getElem?_set_eq_of_lt _ (by rw [moisturePassAux_length]; exact h)

lemma advValue_elevation (n : ℕ) (sq : List Square) (i : ℕ) :
    (advValue n sq i).elevation = (sq.getD i dSq).elevation := rfl

lemma advValue_temperature (n : ℕ) (sq : List Square) (i : ℕ) :
    (advValue n sq i).temperature = (sq.getD i dSq).temperature := rfl

lemma advStep_getD_elevation (n : ℕ) (sq : List Square) (i j : ℕ) :
    ((advStep n sq i).getD j dSq).elevation = (sq.getD j dSq).elevation := by
  by_cases h : i = j
  · subst h
    rw [advStep, List.getD_eq_getElem?_getD, List.getElem?_set_self']
    cases hl : sq[i]? with
    | none => simp [List.getD_eq_getElem?_getD, hl]
    | some v => rfl
  · rw [advStep, List.getD_eq_getElem?_getD, List.getElem?_set_ne h,
      ← List.getD_eq_getElem?_getD]

lemma advStep_getD_temperature (n : ℕ) (sq : List Square) (i j : ℕ) :
    ((advStep n sq i).getD j dSq).temperature = (sq.getD j dSq).temperature := by
  by_cases h : i = j
  · subst h
    rw [advStep, List.getD_eq_getElem?_getD, List.getElem?_set_self']
    cases hl : sq[i]? with
    | none => simp [List.getD_eq_getElem?_getD, hl]
    | some v => rfl
  · rw [advStep, List.getD_eq_getElem?_getD, List.getElem?_set_ne h,
      ← List.getD_eq_getElem?_getD]

lemma moisturePassAux_getD_elevation (n : ℕ) (sq : List Square) :
    ∀ k j, ((moisturePassAux n k sq).getD j dSq).elevation = (sq.getD j dSq).elevation := by
  intro k
  induction k with
  | zero => intro j; rfl
  | succ k ih => intro j; rw [moisturePassAux, advStep_getD_elevation, ih]

lemma moisturePassAux_getD_temperature (n : ℕ) (sq : List Square) :
    ∀ k j, ((moisturePassAux n k sq).getD j dSq).temperature = (sq.getD j dSq).temperature := by
  intro k
  induction k with
  | zero => intro j; rfl
  | succ k ih => intro j; rw [moisturePassAux, advStep_getD_temperature, ih]

lemma clamp01_mem (x : ℚ) : 0 ≤ clamp01 x ∧ clamp01 x ≤ 1 := by
  unfold clamp01
  split_ifs <;> constructor <;> linarith

lemma advValue_moisture (n : ℕ) (sq : List Square) (i : ℕ) :
    (advValue n sq i).moisture =
      clamp01 (if ((sq.getD i dSq).elevation - (sq.getD (upwindIdx n i) dSq).elevation) / 100 > 0
        then (sq.getD (upwindIdx n i) dSq).moisture
          - ((sq.getD i dSq).elevation - (sq.getD (upwindIdx n i) dSq).elevation) / 100 * (2/5)
        else (sq.getD (upwindIdx n i) dSq).moisture) := rfl

lemma moisturePassAux_getD_ge (n : ℕ) (sq : List Square) (k j : ℕ) (h : k ≤ j) :
    (moisturePassAux n k sq).getD j dSq = sq.getD j dSq := by
  rw [List.getD_eq_getElem?_getD, moisturePassAux_getElem?_ge n sq k j h,
    ← List.getD_eq_getElem?_getD]

lemma moisturePass_getD (sq : List Square) (i : ℕ) (h : i < sq.length) :
    (moisturePass sq).getD i dSq = advValue sq.length (moisturePassAux sq.length i sq) i := by
  rw [List.getD_eq_getElem?_getD, moisturePass_getElem? sq i h]
  rfl

lemma moisturePass_getD_elevation (sq : List Square) (j : ℕ) :
    ((moisturePass sq).getD j dSq).elevation = (sq.getD j dSq).elevation :=
  moisturePassAux_getD_elevation _ _ _ _

lemma moisturePass_getD_temperature (sq : List Square) (j : ℕ) :
    ((moisturePass sq).getD j dSq).temperature = (sq.getD j dSq).temperature :=
  moisturePassAux_getD_temperature _ _ _ _

/-- The state just before the last iteration already holds cell 0's final
value. -/
lemma moisturePassAux_last_getD_zero (sq : List Square) (h : 1 < sq.length) :
    (moisturePassAux sq.length (sq.length - 1) sq).getD 0 dSq
      = (moisturePass sq).getD 0 dSq := by
  unfold moisturePass
  rw [List.getD_eq_getElem?_getD, List.getD_eq_getElem?_getD,
    moisturePassAux_getElem?_stable sq.length sq (sq.length - 1) 0 (by omega),
    moisturePassAux_getElem?_stable sq.length sq sq.length 0 (by omega)]

/-! ### Claims C2 and C10 -/

/-- **C2 (amended)**: the pass scans the flat row-major grid; for every index
with `i + 1 < n` the upwind neighbor is the flat successor `i + 1` (even
across row boundaries) and the pre-pass moisture is read; only the very last
index `n - 1` wraps, to global index `0`, and it reads cell 0's already
updated (post-pass) moisture.  `height_diff` uses the unmodified
elevations. -/
theorem c2_advection_flat_scan (sq : List Square) :
    (∀ i, i + 1 < sq.length →
      ((moisturePass sq).getD i dSq).moisture =
        clamp01 (if ((sq.getD i dSq).elevation - (sq.getD (i + 1) dSq).elevation) / 100 > 0
          then (sq.getD (i + 1) dSq).moisture
            - ((sq.getD i dSq).elevation - (sq.getD (i + 1) dSq).elevation) / 100 * (2/5)
          else (sq.getD (i + 1) dSq).moisture)) ∧
    (1 < sq.length →
      ((moisturePass sq).getD (sq.length - 1) dSq).moisture =
        clamp01 (if ((sq.getD (sq.length - 1) dSq).elevation - (sq.getD 0 dSq).elevation) / 100 > 0
          then ((moisturePass sq).getD 0 dSq).moisture
            - ((sq.getD (sq.length - 1) dSq).elevation - (sq.getD 0 dSq).elevation) / 100 * (2/5)
          else ((moisturePass sq).getD 0 dSq).moisture)) := by
  constructor
  · intro i h
    have hupw : upwindIdx sq.length i = i + 1 := by
      unfold upwindIdx
      rw [if_neg (by omega)]
    rw [moisturePass_getD sq i (by omega), advValue_moisture, hupw,
      moisturePassAux_getD_ge sq.length sq i i le_rfl,
      moisturePassAux_getD_ge sq.length sq i (i + 1) (by omega)]
  · intro h
    have hupw : upwindIdx sq.length (sq.length - 1) = 0 := by
      unfold upwindIdx
      rw [if_pos rfl]
    rw [moisturePass_getD sq (sq.length - 1) (by omega), advValue_moisture, hupw,
      moisturePassAux_getD_ge sq.length sq (sq.length - 1) (sq.length - 1) le_rfl,
      moisturePassAux_last_getD_zero sq h, moisturePass_getD_elevation]

/-- A concrete 2×2 grid (uniform elevation, distinct moistures) for the C2
counterexample and witnesses. -/
def sqC2 : List Square :=
  [⟨Biome.Ocean, 50, 10, 1/10⟩, ⟨Biome.Ocean, 50, 10, 9/10⟩,
   ⟨Biome.Ocean, 50, 10, 1/2⟩, ⟨Biome.Ocean, 50, 10, 3/10⟩]

/-- The upwind index C2 claims: `i + 1` within the row, wrapping to column 0
of the same row at the row's last column. -/
def claimUpwind (W i : ℕ) : ℕ := (i / W) * W + ((i % W + 1) % W)

/-- The final moisture C2 claims for cell `i` on a grid of width `W`,
reading pre-pass moisture. -/
def claimMoisture (W : ℕ) (sq : List Square) (i : ℕ) : ℚ :=
  clamp01 (if ((sq.getD i dSq).elevation - (sq.getD (claimUpwind W i) dSq).elevation) / 100 > 0
    then (sq.getD (claimUpwind W i) dSq).moisture
      - ((sq.getD i dSq).elevation - (sq.getD (claimUpwind W i) dSq).elevation) / 100 * (2/5)
    else (sq.getD (claimUpwind W i) dSq).moisture)

/-- **C2 (counterexample)**: on the 2×2 grid `sqC2` the pass does not use the
row-toroidal upwind index the claim states: at index 1 (last column of row 0)
the code reads flat index 2 (first cell of row 1), not column 0 of row 0. -/
theorem c2_advection_rowwrap_counterexample :
    ¬ (∀ i, i < sqC2.length →
        ((moisturePass sqC2).getD i dSq).moisture = claimMoisture 2 sqC2 i) := by
  intro hclaim
  have h1 := hclaim 1 (by decide)
  rw [show ((moisturePass sqC2).getD 1 dSq).moisture = 1/2 by
      norm_num [sqC2, moisturePass, moisturePassAux, advStep, advValue, upwindIdx, clamp01, dSq],
    show claimMoisture 2 sqC2 1 = 1/10 by
      norm_num [sqC2, claimMoisture, claimUpwind, clamp01, dSq]] at h1
  norm_num at h1

/-- Witness for the amended C2 on `sqC2`. -/
theorem c2_advection_flat_scan_witness :
    (0 + 1 < sqC2.length ∧
      ((moisturePass sqC2).getD 0 dSq).moisture =
        clamp01 (if ((sqC2.getD 0 dSq).elevation - (sqC2.getD (0 + 1) dSq).elevation) / 100 > 0
          then (sqC2.getD (0 + 1) dSq).moisture
            - ((sqC2.getD 0 dSq).elevation - (sqC2.getD (0 + 1) dSq).elevation) / 100 * (2/5)
          else (sqC2.getD (0 + 1) dSq).moisture)) ∧
    (1 < sqC2.length ∧
      ((moisturePass sqC2).getD (sqC2.length - 1) dSq).moisture =
        clamp01 (if ((sqC2.getD (sqC2.length - 1) dSq).elevation - (sqC2.getD 0 dSq).elevation) / 100 > 0
          then ((moisturePass sqC2).getD 0 dSq).moisture
            - ((sqC2.getD (sqC2.length - 1) dSq).elevation - (sqC2.getD 0 dSq).elevation) / 100 * (2/5)
          else ((moisturePass sqC2).getD 0 dSq).moisture)) :=
  ⟨⟨by decide, (c2_advection_flat_scan sqC2).1 0 (by decide)⟩,
   ⟨by decide, (c2_advection_flat_scan sqC2).2 (by decide)⟩⟩

/-- **C10**: the moisture advection / biome assignment pass preserves the
grid's cell count and every cell's elevation and temperature. -/
theorem c10_pass_frame (sq : List Square) :
    (moisturePass sq).length = sq.length ∧
    ∀ j, ((moisturePass sq).getD j dSq).elevation = (sq.getD j dSq).elevation ∧
      ((moisturePass sq).getD j dSq).temperature = (sq.getD j dSq).temperature :=
  ⟨moisturePass_length sq, fun j =>
    ⟨moisturePass_getD_elevation sq j, moisturePass_getD_temperature sq j⟩⟩

/-! ### Claim C5 -/

/-- The per-cell (pre-advection) stage of `generate_logical_world` over all
flat indices `0..n-1` (src/main.rs lines 242-339, the `into_par_iter().map`
collected in index order). -/
def primaryGrid (ops : FloatOps) (osim : NoiseFamily) (cfg : WorldData)
    (W n : ℕ) : List Square :=
  (List.range n).map (mainSquareAt ops osim cfg W)

lemma primaryGrid_length (ops : FloatOps) (osim : NoiseFamily) (cfg : WorldData)
    (W n : ℕ) : (primaryGrid ops osim cfg W n).length = n := by
  rw [primaryGrid, List.length_map, List.length_range]

lemma mainSquareAt_moisture_mem (ops : FloatOps) (osim : NoiseFamily)
    (cfg : WorldData) (W i : ℕ) :
    0 ≤ (mainSquareAt ops osim cfg W i).moisture ∧
      (mainSquareAt ops osim cfg W i).moisture ≤ 1 := by
  simp only [mainSquareAt]
  exact clamp01_mem _

lemma moisturePass_moisture_mem (sq : List Square) (i : ℕ) (h : i < sq.length) :
    0 ≤ ((moisturePass sq).getD i dSq).moisture ∧
      ((moisturePass sq).getD i dSq).moisture ≤ 1 := by
  rw [moisturePass_getD sq i h, advValue_moisture]
  exact clamp01_mem _

/-- **C5**: for every configuration (and abstract noise/float operations),
every cell's raw (pre-advection) moisture and final (post-advection)
moisture lie in `[0, 1]`. -/
theorem c5_moisture_bounds (ops : FloatOps) (osim : NoiseFamily)
    (cfg : WorldData) (W n i : ℕ) (h : i < n) :
    (0 ≤ (mainSquareAt ops osim cfg W i).moisture ∧
      (mainSquareAt ops osim cfg W i).moisture ≤ 1) ∧
    (0 ≤ ((moisturePass (primaryGrid ops osim cfg W n)).getD i dSq).moisture ∧
      ((moisturePass (primaryGrid ops osim cfg W n)).getD i dSq).moisture ≤ 1) :=
  ⟨mainSquareAt_moisture_mem ops osim cfg W i,
   moisturePass_moisture_mem (primaryGrid ops osim cfg W n) i
     (by rw [primaryGrid_length]; exact h)⟩

/-- The all-zero noise family, for concrete instantiations. -/
def osim0 : NoiseFamily := fun _ _ _ _ _ => 0

/-- A concrete configuration for witnesses. -/
def cfg0 : WorldData := ⟨0, 1, 1, 1, 48/100, 1, 1, 1⟩

/-- Witness for C5 on a 1-cell world with zero noise and identity float
operations. -/
theorem c5_moisture_bounds_witness :
    0 < 1 ∧
    ((0 ≤ (mainSquareAt idOps osim0 cfg0 1 0).moisture ∧
      (mainSquareAt idOps osim0 cfg0 1 0).moisture ≤ 1) ∧
    (0 ≤ ((moisturePass (primaryGrid idOps osim0 cfg0 1 1)).getD 0 dSq).moisture ∧
      ((moisturePass (primaryGrid idOps osim0 cfg0 1 1)).getD 0 dSq).moisture ≤ 1)) :=
  ⟨by decide, c5_moisture_bounds idOps osim0 cfg0 1 1 0 (by decide)⟩

/-! ### Claim C6 -/

/-- An arbitrary order/partition in which the data-parallel per-cell stage's
writes land: each schedule entry `a` writes `f a` into slot `a`.  Cells are
pure functions of their index, mirroring the `into_par_iter().map` of
src/main.rs lines 242-244 under any rayon work partitioning. -/
def scheduleRun (f : ℕ → Square) : List ℕ → (ℕ → Square) → (ℕ → Square)
  | [], st => st
  | a :: rest, st => scheduleRun f rest (fun j => if j = a then f a else st j)

lemma scheduleRun_not_mem (f : ℕ → Square) :
    ∀ (sched : List ℕ) (st : ℕ → Square) (i : ℕ), i ∉ sched →
      scheduleRun f sched st i = st i := by
  intro sched
  induction sched with
  | nil => intro st i _; rfl
  | cons a t ih =>
    intro st i h
    rw [List.mem_cons, not_or] at h
    rw [scheduleRun, ih _ i h.2]
    simp [h.1]

lemma scheduleRun_mem (f : ℕ → Square) :
    ∀ (sched : List ℕ) (st : ℕ → Square) (i : ℕ), i ∈ sched →
      scheduleRun f sched st i = f i := by
  intro sched
  induction sched with
  | nil => intro st i h; cases h
  | cons a t ih =>
    intro st i h
    by_cases ht : i ∈ t
    · rw [scheduleRun, ih _ i ht]
    · have hia : i = a := by
        rcases List.mem_cons.mp h with h' | h'
        · exact h'
        · exact absurd h' ht
      rw [scheduleRun, scheduleRun_not_mem f t _ i ht]
      simp [hia]

/-- Whole-grid generation with the per-cell stage executed along an arbitrary
write schedule, followed by the sequential advection pass. -/
def generateWorldSched (ops : FloatOps) (osim : NoiseFamily) (cfg : WorldData)
    (W n : ℕ) (sched : List ℕ) (st : ℕ → Square) : List Square :=
  moisturePass ((List.range n).map (scheduleRun (mainSquareAt ops osim cfg W) sched st))

lemma scheduleRun_covers (ops : FloatOps) (osim : NoiseFamily) (cfg : WorldData)
    (W n : ℕ) (sched : List ℕ) (st : ℕ → Square) (h : ∀ i, i < n → i ∈ sched) :
    (List.range n).map (scheduleRun (mainSquareAt ops osim cfg W) sched st)
      = primaryGrid ops osim cfg W n := by
  rw [primaryGrid]
  exact List.map_congr_left fun a ha =>
    scheduleRun_mem _ sched st a (h a (List.mem_range.mp ha))

/-- **C6**: generation is deterministic: any two write schedules that both
cover all `n` cell indices (any thread count / work partitioning), starting
from any two initial buffer contents, produce the same final grid — namely
the advection pass applied to the canonical index-ordered per-cell grid. -/
theorem c6_generation_deterministic (ops : FloatOps) (osim : NoiseFamily)
    (cfg : WorldData) (W n : ℕ) (s1 s2 : List ℕ) (st1 st2 : ℕ → Square)
    (h1 : ∀ i, i < n → i ∈ s1) (h2 : ∀ i, i < n → i ∈ s2) :
    generateWorldSched ops osim cfg W n s1 st1
      = generateWorldSched ops osim cfg W n s2 st2 ∧
    generateWorldSched ops osim cfg W n s1 st1
      = moisturePass (primaryGrid ops osim cfg W n) := by
  unfold generateWorldSched
  rw [scheduleRun_covers ops osim cfg W n s1 st1 h1,
    scheduleRun_covers ops osim cfg W n s2 st2 h2]
  exact ⟨rfl, rfl⟩

/-- Witness for C6: two different schedules covering a 2-cell world. -/
theorem c6_generation_deterministic_witness :
    (∀ i, i < 2 → i ∈ [0, 1]) ∧ (∀ i, i < 2 → i ∈ [1, 0, 1]) ∧
    (generateWorldSched idOps osim0 cfg0 1 2 [0, 1] (fun _ => dSq)
      = generateWorldSched idOps osim0 cfg0 1 2 [1, 0, 1] (fun _ => dSq) ∧
    generateWorldSched idOps osim0 cfg0 1 2 [0, 1] (fun _ => dSq)
      = moisturePass (primaryGrid idOps osim0 cfg0 1 2)) :=
  ⟨by decide, by decide,
   c6_generation_deterministic idOps osim0 cfg0 1 2 [0, 1] [1, 0, 1] _ _
     (by decide) (by decide)⟩

/-! ### Claim C7 -/

/-- Two's-complement wrapping to a 32-bit signed integer: the value a Rust
`i32` arithmetic operation produces in release builds on overflow (debug
builds panic instead); the identity whenever the value fits in `i32`. -/
def wrap32 (v : ℤ) : ℤ := (v + 2147483648) % 4294967296 - 2147483648

/-- `wrap` (src/main.rs lines 545-547): `((v % max) + max) % max` over `i32`,
with Rust's truncating `%` (`Int.tmod`); the addition is a 32-bit operation
and can overflow, hence the `wrap32`. -/
def wrap (v max : ℤ) : ℤ := (wrap32 ((v.tmod max) + max)).tmod max

/-- `index_toroidal` (src/main.rs lines 549-553): `wy * size + wx` over
`i32`; both the product and the sum are 32-bit operations (the final
`as usize` cast is the identity on the non-negative in-range results the
theorems below concern). -/
def index_toroidal (x y size : ℤ) : ℤ :=
  wrap32 (wrap32 ((wrap y size) * size) + wrap x size)

lemma neg_lt_tmod (v m : ℤ) (hm : 0 < m) : -m < v.tmod m := by
  rcases le_or_lt 0 v with hv | hv
  · have := Int.tmod_nonneg m hv
    linarith
  · have h1 : (-v).tmod m < m := Int.tmod_lt_of_pos (-v) hm
    have h2 : (-v).tmod m = -(v.tmod m) := by
      rw [Int.tmod_def, Int.tmod_def, Int.neg_tdiv]
      ring
    rw [h2] at h1
    linarith

lemma wrap32_eq_self (v : ℤ) (hlo : -2147483648 ≤ v) (hhi : v < 2147483648) :
    wrap32 v = v := by
  unfold wrap32
  rw [Int.emod_eq_of_lt (by linarith) (by linarith)]
  ring

/-- For a positive modulus at most 46340 (so that no 32-bit intermediate
overflows), `wrap` is the non-negative (Euclidean) modulo. -/
lemma wrap_eq_emod (v m : ℤ) (hm : 0 < m) (hsz : m ≤ 46340) : wrap v m = v % m := by
  unfold wrap
  have hlo := neg_lt_tmod v m hm
  have hhi := Int.tmod_lt_of_pos v hm
  rw [wrap32_eq_self (v.tmod m + m) (by linarith) (by linarith)]
  have hw : 0 ≤ v.tmod m + m := by linarith
  rw [Int.tmod_eq_emod hw (le_of_lt hm), Int.tmod_def]
  have hr : v - m * (v.tdiv m) + m = v + m * (1 - v.tdiv m) := by ring
  rw [hr, Int.add_mul_emod_self_left]

/-- On the overflow-free sizes, `index_toroidal` computes the claimed
formula. -/
lemma index_toroidal_eq_emod (x y s : ℤ) (hs : 0 < s) (hsz : s ≤ 46340) :
    index_toroidal x y s = (y % s) * s + (x % s) := by
  unfold index_toroidal
  rw [wrap_eq_emod x s hs hsz, wrap_eq_emod y s hs hsz]
  have hy0 : 0 ≤ y % s := Int.emod_nonneg y (by omega)
  have hy1 : y % s < s := Int.emod_lt_of_pos y hs
  have hx0 : 0 ≤ x % s := Int.emod_nonneg x (by omega)
  have hx1 : x % s < s := Int.emod_lt_of_pos x hs
  have hss : s * s ≤ 46340 * 46340 := mul_le_mul hsz hsz (le_of_lt hs) (by norm_num)
  have hprod : (y % s) * s ≤ (s - 1) * s :=
    mul_le_mul_of_nonneg_right (by omega) (le_of_lt hs)
  have hprod0 : 0 ≤ (y % s) * s := mul_nonneg hy0 (le_of_lt hs)
  have hexp : (s - 1) * s = s * s - s := by ring
  have hin : (y % s) * s < 2147483648 := by linarith
  have hsum : (y % s) * s + (x % s) < 2147483648 := by linarith
  rw [wrap32_eq_self ((y % s) * s) (by linarith) hin,
    wrap32_eq_self ((y % s) * s + (x % s)) (by linarith) hsum]

/-- **C7 (counterexample)**: the claim's domain is every positive `size`, but
at `size = 65536` (a valid positive `i32`) and `y = 32768` the claimed value
`(y mod size)·size + (x mod size) = 2^31` does not fit in `i32`: the source's
32-bit multiply `wy * size` overflows (a panic in debug builds; in release
builds the function returns `-2^31`, and the following `as usize` cast turns
it into a garbage index), so the program does not return the claimed
value. -/
theorem c7_i32_overflow_counterexample :
    index_toroidal 0 32768 65536 ≠ ((32768 : ℤ) % 65536) * 65536 + ((0 : ℤ) % 65536) ∧
    index_toroidal 0 32768 65536 = -2147483648 := by
  constructor <;> decide

/-- **C7 (amended)**: for every `x`, `y` and every positive `size ≤ 46340`
(the largest size whose full index range fits in `i32` — `46340² < 2^31 ≤
46341²`; the program's sizes 4096 and 8192 qualify), `index_toroidal` equals
`((y mod size) * size) + (x mod size)` with the non-negative modulo; in
particular `index_toroidal (-1) 0 10 = index_toroidal 9 0 10`, and adding any
multiple of `size` to either coordinate leaves the index unchanged.  For any
`size ≥ 46341` the claimed value at `x = y = size - 1` exceeds `i32::MAX`,
so no such bound-free statement holds of the `i32` program. -/
theorem c7_toroidal_index (x y k j s : ℤ) (hs : 0 < s) (hsz : s ≤ 46340) :
    index_toroidal x y s = (y % s) * s + (x % s) ∧
    index_toroidal (-1) 0 10 = index_toroidal 9 0 10 ∧
    index_toroidal (x + k * s) (y + j * s) s = index_toroidal x y s := by
  refine ⟨index_toroidal_eq_emod x y s hs hsz, ?_, ?_⟩
  · rw [index_toroidal_eq_emod (-1) 0 10 (by norm_num) (by norm_num),
      index_toroidal_eq_emod 9 0 10 (by norm_num) (by norm_num)]
    norm_num
  · rw [index_toroidal_eq_emod (x + k * s) (y + j * s) s hs hsz,
      index_toroidal_eq_emod x y s hs hsz,
      mul_comm k s, Int.add_mul_emod_self_left,
      mul_comm j s, Int.add_mul_emod_self_left]

/-- Witness for the amended C7 at `x = -1`, `y = 7`, `s = 10`. -/
theorem c7_toroidal_index_witness :
    (0 : ℤ) < 10 ∧ (10 : ℤ) ≤ 46340 ∧
    (index_toroidal (-1) 7 10 = (7 % 10) * 10 + ((-1) % 10) ∧
     index_toroidal (-1) 0 10 = index_toroidal 9 0 10 ∧
     index_toroidal ((-1) + 2 * 10) (7 + (-3) * 10) 10 = index_toroidal (-1) 7 10) :=
  ⟨by norm_num, by norm_num,
   c7_toroidal_index (-1) 7 2 (-3) 10 (by norm_num) (by norm_num)⟩

/-! ### Claim C3: the chunked generator (src/systems/world_gen.rs) -/

/-- `WORLD_SIZE` of src/systems/world.rs (line 10), imported by
src/systems/world_gen.rs. -/
def WORLD_SIZE_SYS : ℕ := 8192

/-- Modelled from the spec: `MAX_ELEVATION` is imported by
src/systems/world_gen.rs from `crate::systems::world`, which does not define
it in the repository snapshot; the spec fixes the absolute elevation scale as
`[0, MAX_ELEVATION]` with `MAX_ELEVATION = 100`. -/
def MAX_ELEVATION : ℚ := 100

/-- `get_elevation_at_position` (src/systems/world_gen.rs lines 60-101). -/
def get_elevation_at_position (osim : NoiseFamily) (t : ℚ × ℚ × ℚ × ℚ)
    (cfg : WorldData) : ℚ :=
  let nx := t.1
  let ny := t.2.1
  let nz := t.2.2.1
  let nw := t.2.2.2
  let oct := octaveAux (osim cfg.seed) nx ny nz nw cfg.num_of_octaves cfg.terrain_scale 1
  let elevation_terrain := oct.1
  let max_possible_amplitude := oct.2
  let elevation_continental := osim (cfg.seed + 1)
    (nx * cfg.continental_scale) (ny * cfg.continental_scale)
    (nz * cfg.continental_scale) (nw * cfg.continental_scale)
  let sea_bias : ℚ := 75/1000
  let elevation_normalized := (elevation_continental - sea_bias)
    + ((elevation_terrain / max_possible_amplitude)
        * get_land_strength elevation_continental)
  ((elevation_normalized + 1) / 2) * MAX_ELEVATION

/-- `get_temperature_at_position` (src/systems/world_gen.rs lines 103-129). -/
def get_temperature_at_position (ops : FloatOps) (osim : NoiseFamily)
    (t : ℚ × ℚ × ℚ × ℚ) (elevation_final : ℚ) (cfg : WorldData) : ℚ :=
  let nx := t.1
  let ny := t.2.1
  let nz := t.2.2.1
  let nw := t.2.2.2
  let y_lat := ny / cfg.scaling_factor + (WORLD_SIZE_SYS : ℚ) / 2
  let latitude := |y_lat - (WORLD_SIZE_SYS : ℚ) / 2| / ((WORLD_SIZE_SYS : ℚ) / 2)
  let temperature_latitude := 30 - 40 * latitude
  let h := elevation_final / 100
  let temperature_elevation := -(ops.fpow h (3/2)) * 15
  let temperature_noise := osim (cfg.seed + 2)
    (nx * cfg.temperature_scale) (ny * cfg.temperature_scale)
    (nz * cfg.temperature_scale) (nw * cfg.temperature_scale) * 5
  temperature_latitude + temperature_elevation + temperature_noise

/-- `get_moisture_at_position` (src/systems/world_gen.rs lines 131-155). -/
def get_moisture_at_position (ops : FloatOps) (osim : NoiseFamily)
    (t : ℚ × ℚ × ℚ × ℚ) (elevation_final : ℚ) (cfg : WorldData) : ℚ :=
  let nx := t.1
  let ny := t.2.1
  let nz := t.2.2.1
  let nw := t.2.2.2
  let moisture_noise := osim (cfg.seed + 3)
    (nx * cfg.moisture_scale) (ny * cfg.moisture_scale)
    (nz * cfg.moisture_scale) (nw * cfg.moisture_scale)
  let moisture_base := (moisture_noise + 1) / 2
  let latitude := |ny / cfg.scaling_factor - (WORLD_SIZE_SYS : ℚ) / 2|
    / ((WORLD_SIZE_SYS : ℚ) / 2)
  let equator_wet := ops.fexp (-latitude * 3)
  let subtropical_dry := ops.fexp (-((latitude - 3/10) ^ 2) / (2/100))
  let moisture_latitude := equator_wet - 2/5 * subtropical_dry
  let moisture_elevation := -(elevation_final / 100) * (1/4)
  clamp01 (moisture_base + moisture_latitude + moisture_elevation)

/-- `generate_square_at_position` (src/systems/world_gen.rs lines 38-58):
note it feeds the raw grid coordinates `x`, `y` to `cos`/`sin` (no `2π/W`
normalization). -/
def generate_square_at_position (ops : FloatOps) (osim : NoiseFamily)
    (cfg : WorldData) (x y : ℚ) : Square :=
  let nx := ops.fcos x * cfg.scaling_factor
  let ny := ops.fsin x * cfg.scaling_factor
  let nz := ops.fcos y * cfg.scaling_factor
  let nw := ops.fsin y * cfg.scaling_factor
  let t_position := (nx, ny, nz, nw)
  let elevation_final := get_elevation_at_position osim t_position cfg
  let temperature_final := get_temperature_at_position ops osim t_position elevation_final cfg
  let moisture_final := get_moisture_at_position ops osim t_position elevation_final cfg
  { biome := Biome.Ocean
    elevation := elevation_final
    temperature := temperature_final
    moisture := moisture_final }

/-- The nested write loop of `generate_chunk_primary`: each pair `(x, y)`
writes the generated square at flat index `y * size + x`. -/
def writeCells (f : ℕ → ℕ → Square) (size : ℕ) :
    List (ℕ × ℕ) → List Square → List Square
  | [], sq => sq
  | p :: rest, sq => writeCells f size rest (sq.set (p.2 * size + p.1) (f p.1 p.2))

/-- The `(x, y)` iteration order of src/systems/world_gen.rs lines 25-33
(`x` outer, `y` inner). -/
def chunkPairs : List (ℕ × ℕ) :=
  (List.range CHUNK_SIZE).flatMap fun x => (List.range CHUNK_SIZE).map fun y => (x, y)

/-- `generate_chunk_primary` (src/systems/world_gen.rs lines 21-36), with the
halo width `halo` a parameter (the repository snapshot does not define the
`HALO` constant it imports; the spec only says the buffer carries a halo
border).  `Square::default()` is modelled as `dSq` (the repository does not
derive `Default` for `Square`). -/
def generate_chunk_primary (ops : FloatOps) (osim : NoiseFamily)
    (cfg : WorldData) (halo : ℕ) (cx cy : ℤ) : List Square :=
  let size := CHUNK_SIZE + halo
  writeCells
    (fun x y => generate_square_at_position ops osim cfg
      ((((x : ℤ) + cx * (CHUNK_SIZE : ℤ)) : ℤ) : ℚ)
      ((((y : ℤ) + cy * (CHUNK_SIZE : ℤ)) : ℤ) : ℚ))
    size chunkPairs (List.replicate (size * CHUNK_SIZE) dSq)

/-- The per-cell update of `apply_moisture_pass_and_assign_biomes`
(src/systems/world_gen.rs lines 164-185): upwind is the flat successor
`i + 1` (which at the row's last visible column lies in the halo), and the
biome is classified from the just-updated moisture. -/
def chunkAdvValue (sq : List Square) (i : ℕ) : Square :=
  let cur := sq.getD i dSq
  let up := sq.getD (i + 1) dSq
  let height_diff := (cur.elevation - up.elevation) / 100
  let m1 := if height_diff > 0 then up.moisture - height_diff * (2/5) else up.moisture
  let m := clamp01 m1
  { biome := biome_from_climate cur.temperature m cur.elevation MAX_ELEVATION
    elevation := cur.elevation
    temperature := cur.temperature
    moisture := m }

/-- The `(y, x)` iteration order of src/systems/world_gen.rs lines 163-164
(`y` outer, `x` inner). -/
def chunkPassPairs : List (ℕ × ℕ) :=
  (List.range CHUNK_SIZE).flatMap fun y => (List.range CHUNK_SIZE).map fun x => (y, x)

/-- Sequential in-place execution of the chunk pass over the given cell
order. -/
def chunkPassRun (width : ℕ) : List (ℕ × ℕ) → List Square → List Square
  | [], sq => sq
  | p :: rest, sq =>
    chunkPassRun width rest (sq.set (p.1 * width + p.2) (chunkAdvValue sq (p.1 * width + p.2)))

/-- `apply_moisture_pass_and_assign_biomes` (src/systems/world_gen.rs lines
157-188). -/
def apply_moisture_pass_and_assign_biomes (halo : ℕ) (sq : List Square) : List Square :=
  chunkPassRun (CHUNK_SIZE + halo) chunkPassPairs sq

/-- `generate_chunk_data` (src/systems/world_gen.rs lines 14-19): the pass is
applied to `squares.clone()` and its result discarded; the primary buffer is
returned. -/
def generate_chunk_data (ops : FloatOps) (osim : NoiseFamily) (cfg : WorldData)
    (halo : ℕ) (cx cy : ℤ) : List Square :=
  let squares := generate_chunk_primary ops osim cfg halo cx cy
  let _pass_result_of_clone := apply_moisture_pass_and_assign_biomes halo squares
  squares

lemma writeCells_length (f : ℕ → ℕ → Square) (size : ℕ) :
    ∀ (pairs : List (ℕ × ℕ)) (sq : List Square),
      (writeCells f size pairs sq).length = sq.length := by
  intro pairs
  induction pairs with
  | nil => intro sq; rfl
  | cons p rest ih => intro sq; rw [writeCells, ih, List.length_set]

lemma set_getD_biome (sq : List Square) (k : ℕ) (v : Square)
    (hv : v.biome = Biome.Ocean)
    (hsq : ∀ i (d : Square), i < sq.length → (sq.getD i d).biome = Biome.Ocean) :
    ∀ i (d : Square), i < (sq.set k v).length → ((sq.set k v).getD i d).biome = Biome.Ocean := by
  intro i d hi
  rw [List.length_set] at hi
  by_cases h : k = i
  · subst h
    rw [List.getD_eq_getElem?_getD, List.getElem?_set_self',
      List.getElem?_eq_getElem hi]
    exact hv
  · rw [List.getD_eq_getElem?_getD, List.getElem?_set_ne h, ← List.getD_eq_getElem?_getD]
    exact hsq i d hi

lemma writeCells_biome (f : ℕ → ℕ → Square) (size : ℕ)
    (hf : ∀ x y, (f x y).biome = Biome.Ocean) :
    ∀ (pairs : List (ℕ × ℕ)) (sq : List Square),
      (∀ i (d : Square), i < sq.length → (sq.getD i d).biome = Biome.Ocean) →
      ∀ i (d : Square), i < (writeCells f size pairs sq).length →
        ((writeCells f size pairs sq).getD i d).biome = Biome.Ocean := by
  intro pairs
  induction pairs with
  | nil => intro sq hsq; exact hsq
  | cons p rest ih =>
    intro sq hsq
    rw [writeCells]
    exact ih _ (set_getD_biome sq _ _ (hf p.1 p.2) hsq)

lemma replicate_getD_biome (n : ℕ) :
    ∀ i (d : Square), i < (List.replicate n dSq).length →
      ((List.replicate n dSq).getD i d).biome = Biome.Ocean := by
  intro i d hi
  rw [List.length_replicate] at hi
  rw [List.getD_eq_getElem?_getD, List.getElem?_replicate, if_pos hi]
  rfl

/-- **C3**: `generate_chunk_data` applies the moisture/biome pass to a clone
and discards the result: the returned buffer is exactly the primary
(pre-pass) buffer, every generated cell's biome is the `Ocean` placeholder,
and hence every in-range cell of the returned chunk has biome `Ocean` —
the advection pass's moisture and the classifier's biome are not retained. -/
theorem c3_chunk_pass_discarded (ops : FloatOps) (osim : NoiseFamily)
    (cfg : WorldData) (halo : ℕ) (cx cy : ℤ) :
    generate_chunk_data ops osim cfg halo cx cy
      = generate_chunk_primary ops osim cfg halo cx cy ∧
    (∀ x y : ℚ, (generate_square_at_position ops osim cfg x y).biome = Biome.Ocean) ∧
    (∀ i (d : Square), i < (CHUNK_SIZE + halo) * CHUNK_SIZE →
      ((generate_chunk_data ops osim cfg halo cx cy).getD i d).biome = Biome.Ocean) := by
  refine ⟨rfl, fun x y => rfl, ?_⟩
  intro i d hi
  show ((generate_chunk_primary ops osim cfg halo cx cy).getD i d).biome = Biome.Ocean
  simp only [generate_chunk_primary]
  refine writeCells_biome _ _ (fun x y => rfl) chunkPairs _ (replicate_getD_biome _) i d ?_
  rw [writeCells_length, List.length_replicate]
  exact hi

/-- Witness for C3 at chunk `(0, 0)` with halo 1. -/
theorem c3_chunk_pass_discarded_witness :
    0 < (CHUNK_SIZE + 1) * CHUNK_SIZE ∧
    (generate_chunk_data idOps osim0 cfg0 1 0 0
      = generate_chunk_primary idOps osim0 cfg0 1 0 0 ∧
    ((generate_chunk_data idOps osim0 cfg0 1 0 0).getD 0 dSq).biome = Biome.Ocean) :=
  ⟨by decide,
   (c3_chunk_pass_discarded idOps osim0 cfg0 1 0 0).1,
   (c3_chunk_pass_discarded idOps osim0 cfg0 1 0 0).2.2 0 dSq (by decide)⟩

/-! ### Claim C8: seam continuity, over exact real trigonometry

The `ℚ` layer above abstracts `cos`/`sin`; seam continuity is a genuine
trigonometric identity, so this layer embeds the same source code over `ℝ`
with `Real.cos`/`Real.sin` (the idealized semantics of `f64::cos/sin`), and
keeps `exp`/`powf` and the noise evaluators abstract. -/

/-- Real-valued generation config (same fields as `WorldData`). -/
structure RWorldData where
  seed : ℕ
  terrain_scale : ℝ
  continental_scale : ℝ
  num_of_octaves : ℕ
  sea_threshold : ℝ
  temperature_scale : ℝ
  moisture_scale : ℝ
  scaling_factor : ℝ

/-- Real-valued seed-indexed noise family. -/
def RNoiseFamily : Type := ℕ → ℝ → ℝ → ℝ → ℝ → ℝ

/-- Abstract real `exp`/`powf`. -/
structure RFloatOps where
  fexp : ℝ → ℝ
  fpow : ℝ → ℝ → ℝ

noncomputable def clamp01R (x : ℝ) : ℝ := if x < 0 then 0 else if x > 1 then 1 else x

/-- `get_land_strength` over `ℝ`. -/
noncomputable def get_land_strengthR (elevation : ℝ) : ℝ :=
  if elevation = -1 then 0
  else if -1 ≤ elevation ∧ elevation ≤ -(1/2) then 1/10
  else if -(1/2) ≤ elevation ∧ elevation ≤ 0 then 1/2
  else if 0 ≤ elevation ∧ elevation ≤ 1/2 then 4/5
  else if 1/2 ≤ elevation ∧ elevation ≤ 1 then 1
  else 0

/-- The octave loop over `ℝ`. -/
noncomputable def octaveAuxR (noise : ℝ → ℝ → ℝ → ℝ → ℝ) (nx ny nz nw : ℝ) :
    ℕ → ℝ → ℝ → ℝ × ℝ
  | 0, _, _ => (0, 0)
  | n + 1, scale, amplitude =>
    let rest := octaveAuxR noise nx ny nz nw n (scale * 2) (amplitude / 2)
    (noise (nx * scale) (ny * scale) (nz * scale) (nw * scale) * amplitude + rest.1,
     amplitude + rest.2)

/-- The torus angle of src/main.rs lines 248-249: `v / W * 2π`. -/
noncomputable def mainAngle (W : ℕ) (v : ℤ) : ℝ := (v : ℝ) / (W : ℝ) * 2 * Real.pi

/-- The per-cell stage of `generate_logical_world` over `ℝ`, as a function of
the four torus coordinates, the grid-row latitude input `yLat`, and the
`y`-angle `θy` (which the source's moisture latitude reads); returns
`(elevation, temperature, raw moisture)`. -/
noncomputable def mainCellCoreR (ops : RFloatOps) (osim : RNoiseFamily)
    (cfg : RWorldData) (W : ℕ) (nx ny nz nw yLat θy : ℝ) : ℝ × ℝ × ℝ :=
  let oct := octaveAuxR (osim cfg.seed) nx ny nz nw cfg.num_of_octaves cfg.terrain_scale 1
  let elevation_terrain := oct.1
  let max_possible_amplitude := oct.2
  let elevation_continental := osim (cfg.seed + 1)
    (nx * cfg.continental_scale) (ny * cfg.continental_scale)
    (nz * cfg.continental_scale) (nw * cfg.continental_scale)
  let sea_bias : ℝ := 75/1000
  let elevation_normalized := (elevation_continental - sea_bias)
    + ((elevation_terrain / max_possible_amplitude)
        * get_land_strengthR elevation_continental)
  let elevation_final := ((elevation_normalized + 1) / 2) * 100
  let latitude := |yLat - (W : ℝ) / 2| / ((W : ℝ) / 2)
  let temperature_latitude := 30 - 40 * latitude
  let h := elevation_final / 100
  let temperature_elevation := -(ops.fpow h (3/2)) * 15
  let temperature_noise := osim (cfg.seed + 2)
    (nx * cfg.temperature_scale) (ny * cfg.temperature_scale)
    (nz * cfg.temperature_scale) (nw * cfg.temperature_scale) * 5
  let temperature_final := temperature_latitude + temperature_elevation + temperature_noise
  let moisture_noise := osim (cfg.seed + 3)
    (nx * cfg.moisture_scale) (ny * cfg.moisture_scale)
    (nz * cfg.moisture_scale) (nw * cfg.moisture_scale)
  let moisture_base := (moisture_noise + 1) / 2
  let latitude2 := |θy - (W : ℝ) / 2| / ((W : ℝ) / 2)
  let moisture_latitude := ops.fexp (-latitude2 * 3)
    - 2/5 * ops.fexp (-((latitude2 - 3/10) ^ 2) / (2/100))
  let moisture_elevation := -(elevation_final / 100) * (1/4)
  let moisture_raw := clamp01R (moisture_base + moisture_latitude + moisture_elevation)
  (elevation_final, temperature_final, moisture_raw)

/-- The per-cell stage of `generate_logical_world` over `ℝ` at grid
coordinates `(x, y)` on a `W × W` grid. -/
noncomputable def mainCellR (ops : RFloatOps) (osim : RNoiseFamily)
    (cfg : RWorldData) (W : ℕ) (x y : ℤ) : ℝ × ℝ × ℝ :=
  let θx := mainAngle W x
  let θy := mainAngle W y
  mainCellCoreR ops osim cfg W
    (Real.cos θx * cfg.scaling_factor) (Real.sin θx * cfg.scaling_factor)
    (Real.cos θy * cfg.scaling_factor) (Real.sin θy * cfg.scaling_factor)
    (y : ℝ) θy

lemma mainAngle_zero (W : ℕ) : mainAngle W 0 = 0 := by
  simp [mainAngle]

lemma mainAngle_world (W : ℕ) (hW : 0 < W) : mainAngle W (W : ℤ) = 2 * Real.pi := by
  unfold mainAngle
  have hne : (W : ℝ) ≠ 0 := Nat.cast_ne_zero.mpr (by omega)
  rw [Int.cast_natCast]
  field_simp

/-- The temperature projection depends on `yLat` only through
`|yLat - W/2|`. -/
lemma mainCellCoreR_temp_congr (ops : RFloatOps) (osim : RNoiseFamily)
    (cfg : RWorldData) (W : ℕ) (nx ny nz nw yLat yLat' θy θy' : ℝ)
    (h : |yLat - (W : ℝ) / 2| = |yLat' - (W : ℝ) / 2|) :
    (mainCellCoreR ops osim cfg W nx ny nz nw yLat θy).2.1
      = (mainCellCoreR ops osim cfg W nx ny nz nw yLat' θy').2.1 := by
  simp only [mainCellCoreR]
  rw [h]

/-- **C8 (amended)**: for the whole-grid generator's torus mapping
(`θ = 2π·v/W`, exact real trigonometry), the per-cell elevation, temperature
and raw moisture at `x = 0` equal those at `x = W` for the same `y`; and at
`y = 0` versus `y = W` the elevation and temperature agree (the raw moisture
does not, because its latitude is computed from the `y`-angle — the C1
slip). -/
theorem c8_seam_continuity_whole_grid (ops : RFloatOps) (osim : RNoiseFamily)
    (cfg : RWorldData) (W : ℕ) (hW : 0 < W) (x y : ℤ) :
    mainCellR ops osim cfg W 0 y = mainCellR ops osim cfg W (W : ℤ) y ∧
    (mainCellR ops osim cfg W x 0).1 = (mainCellR ops osim cfg W x (W : ℤ)).1 ∧
    (mainCellR ops osim cfg W x 0).2.1 = (mainCellR ops osim cfg W x (W : ℤ)).2.1 := by
  have h0 := mainAngle_zero W
  have hWa := mainAngle_world W hW
  refine ⟨?_, ?_, ?_⟩
  · simp only [mainCellR, h0, hWa, Real.cos_two_pi, Real.sin_two_pi,
      Real.cos_zero, Real.sin_zero]
  · simp only [mainCellR, h0, hWa, Real.cos_two_pi, Real.sin_two_pi,
      Real.cos_zero, Real.sin_zero]
    rfl
  · simp only [mainCellR, h0, hWa, Real.cos_two_pi, Real.sin_two_pi,
      Real.cos_zero, Real.sin_zero]
    apply mainCellCoreR_temp_congr
    push_cast
    rw [show (0 : ℝ) - (W : ℝ) / 2 = -((W : ℝ) / 2) by ring, abs_neg,
      show (W : ℝ) - (W : ℝ) / 2 = (W : ℝ) / 2 by ring]

/-- Witness for the amended C8 at `W = 4096` (src/main.rs). -/
theorem c8_seam_continuity_whole_grid_witness :
    0 < WORLD_SIZE ∧
    (mainCellR ⟨fun _ => 0, fun _ _ => 0⟩ (fun _ _ _ _ _ => 0)
        ⟨0, 1, 1, 1, 48/100, 1, 1, 1⟩ WORLD_SIZE 0 5
      = mainCellR ⟨fun _ => 0, fun _ _ => 0⟩ (fun _ _ _ _ _ => 0)
        ⟨0, 1, 1, 1, 48/100, 1, 1, 1⟩ WORLD_SIZE (WORLD_SIZE : ℤ) 5 ∧
    (mainCellR ⟨fun _ => 0, fun _ _ => 0⟩ (fun _ _ _ _ _ => 0)
        ⟨0, 1, 1, 1, 48/100, 1, 1, 1⟩ WORLD_SIZE 5 0).1
      = (mainCellR ⟨fun _ => 0, fun _ _ => 0⟩ (fun _ _ _ _ _ => 0)
        ⟨0, 1, 1, 1, 48/100, 1, 1, 1⟩ WORLD_SIZE 5 (WORLD_SIZE : ℤ)).1 ∧
    (mainCellR ⟨fun _ => 0, fun _ _ => 0⟩ (fun _ _ _ _ _ => 0)
        ⟨0, 1, 1, 1, 48/100, 1, 1, 1⟩ WORLD_SIZE 5 0).2.1
      = (mainCellR ⟨fun _ => 0, fun _ _ => 0⟩ (fun _ _ _ _ _ => 0)
        ⟨0, 1, 1, 1, 48/100, 1, 1, 1⟩ WORLD_SIZE 5 (WORLD_SIZE : ℤ)).2.1) :=
  ⟨by decide,
   c8_seam_continuity_whole_grid ⟨fun _ => 0, fun _ _ => 0⟩ (fun _ _ _ _ _ => 0)
     ⟨0, 1, 1, 1, 48/100, 1, 1, 1⟩ WORLD_SIZE (by decide) 5 5⟩

/-- `get_elevation_at_position` over `ℝ`. -/
noncomputable def get_elevation_at_positionR (osim : RNoiseFamily)
    (t : ℝ × ℝ × ℝ × ℝ) (cfg : RWorldData) : ℝ :=
  let nx := t.1
  let ny := t.2.1
  let nz := t.2.2.1
  let nw := t.2.2.2
  let oct := octaveAuxR (osim cfg.seed) nx ny nz nw cfg.num_of_octaves cfg.terrain_scale 1
  let elevation_terrain := oct.1
  let max_possible_amplitude := oct.2
  let elevation_continental := osim (cfg.seed + 1)
    (nx * cfg.continental_scale) (ny * cfg.continental_scale)
    (nz * cfg.continental_scale) (nw * cfg.continental_scale)
  let sea_bias : ℝ := 75/1000
  let elevation_normalized := (elevation_continental - sea_bias)
    + ((elevation_terrain / max_possible_amplitude)
        * get_land_strengthR elevation_continental)
  ((elevation_normalized + 1) / 2) * 100

/-- `get_temperature_at_position` over `ℝ`. -/
noncomputable def get_temperature_at_positionR (ops : RFloatOps) (osim : RNoiseFamily)
    (t : ℝ × ℝ × ℝ × ℝ) (elevation_final : ℝ) (cfg : RWorldData) : ℝ :=
  let nx := t.1
  let ny := t.2.1
  let nz := t.2.2.1
  let nw := t.2.2.2
  let y_lat := ny / cfg.scaling_factor + (WORLD_SIZE_SYS : ℝ) / 2
  let latitude := |y_lat - (WORLD_SIZE_SYS : ℝ) / 2| / ((WORLD_SIZE_SYS : ℝ) / 2)
  let temperature_latitude := 30 - 40 * latitude
  let h := elevation_final / 100
  let temperature_elevation := -(ops.fpow h (3/2)) * 15
  let temperature_noise := osim (cfg.seed + 2)
    (nx * cfg.temperature_scale) (ny * cfg.temperature_scale)
    (nz * cfg.temperature_scale) (nw * cfg.temperature_scale) * 5
  temperature_latitude + temperature_elevation + temperature_noise

/-- `get_moisture_at_position` over `ℝ`. -/
noncomputable def get_moisture_at_positionR (ops : RFloatOps) (osim : RNoiseFamily)
    (t : ℝ × ℝ × ℝ × ℝ) (elevation_final : ℝ) (cfg : RWorldData) : ℝ :=
  let nx := t.1
  let ny := t.2.1
  let nz := t.2.2.1
  let nw := t.2.2.2
  let moisture_noise := osim (cfg.seed + 3)
    (nx * cfg.moisture_scale) (ny * cfg.moisture_scale)
    (nz * cfg.moisture_scale) (nw * cfg.moisture_scale)
  let moisture_base := (moisture_noise + 1) / 2
  let latitude := |ny / cfg.scaling_factor - (WORLD_SIZE_SYS : ℝ) / 2|
    / ((WORLD_SIZE_SYS : ℝ) / 2)
  let equator_wet := ops.fexp (-latitude * 3)
  let subtropical_dry := ops.fexp (-((latitude - 3/10) ^ 2) / (2/100))
  let moisture_latitude := equator_wet - 2/5 * subtropical_dry
  let moisture_elevation := -(elevation_final / 100) * (1/4)
  clamp01R (moisture_base + moisture_latitude + moisture_elevation)

/-- `generate_square_at_position` over `ℝ`: the raw grid coordinates go
straight into `Real.cos`/`Real.sin` (src/systems/world_gen.rs lines 39-42);
returns `(elevation, temperature, moisture)`. -/
noncomputable def generate_square_at_positionR (ops : RFloatOps)
    (osim : RNoiseFamily) (cfg : RWorldData) (x y : ℝ) : ℝ × ℝ × ℝ :=
  let nx := Real.cos x * cfg.scaling_factor
  let ny := Real.sin x * cfg.scaling_factor
  let nz := Real.cos y * cfg.scaling_factor
  let nw := Real.sin y * cfg.scaling_factor
  let t_position := (nx, ny, nz, nw)
  let elevation_final := get_elevation_at_positionR osim t_position cfg
  let temperature_final := get_temperature_at_positionR ops osim t_position elevation_final cfg
  let moisture_final := get_moisture_at_positionR ops osim t_position elevation_final cfg
  (elevation_final, temperature_final, moisture_final)

/-- Noise family for the C8 counterexample: terrain noise 0, continental
noise returns its first coordinate. -/
noncomputable def osimCx : RNoiseFamily := fun s nx _ _ _ => if s = 1 then nx else 0

/-- Zero real float ops. -/
noncomputable def opsR0 : RFloatOps := ⟨fun _ => 0, fun _ _ => 0⟩

/-- Unit-scale real config. -/
noncomputable def cfgR0 : RWorldData := ⟨0, 1, 1, 1, 48/100, 1, 1, 1⟩

/-- **C8 (counterexample)**: the chunked generator's
`generate_square_at_position` is not seam-continuous: with unit scales,
zero terrain noise and a continental noise returning its first coordinate,
the elevation at grid `x = 0` differs from the elevation at `x = W`
(`W = 8192`), because `cos 8192 ≠ cos 0` — the raw coordinate is never
normalized by `2π/W`. -/
theorem c8_chunk_seam_counterexample :
    (generate_square_at_positionR opsR0 osimCx cfgR0 0 0).1
      ≠ (generate_square_at_positionR opsR0 osimCx cfgR0 (WORLD_SIZE_SYS : ℝ) 0).1 := by
  have key : ∀ x : ℝ, (generate_square_at_positionR opsR0 osimCx cfgR0 x 0).1
      = (Real.cos x + 37/40) * 50 := by
    intro x
    simp only [generate_square_at_positionR, get_elevation_at_positionR,
      octaveAuxR, osimCx, cfgR0]
    norm_num
    ring
  intro h
  rw [key 0, key _, Real.cos_zero] at h
  have hcos : Real.cos ((WORLD_SIZE_SYS : ℕ) : ℝ) = 1 := by linarith
  rcases (Real.cos_eq_one_iff _).mp hcos with ⟨n, hn⟩
  have hn0 : n ≠ 0 := by
    rintro rfl
    norm_num [WORLD_SIZE_SYS] at hn
  have hnR : (n : ℝ) ≠ 0 := Int.cast_ne_zero.mpr hn0
  refine irrational_pi ⟨(4096 : ℚ) / (n : ℚ), ?_⟩
  have hW : ((WORLD_SIZE_SYS : ℕ) : ℝ) = 8192 := by norm_num [WORLD_SIZE_SYS]
  rw [hW] at hn
  push_cast
  rw [div_eq_iff hnR]
  linarith
